import Mathlib

/-!
Verification of the KubeVirt AI agent orchestration core (src/main.py and
src/pkg/mcp.py): the tool registry, the built-in shell executor, the MCP
dispatch path and the bounded conversation loop of process_query, embedded
shallowly as executable Lean functions.  External effects (the Anthropic
endpoint, MCP sessions, subprocesses) are abstracted as oracles passed in as
function arguments; everything else is translated from the source.
-/

namespace KubevirtAI

/-- A tool-call argument object (Python Dict[str, Any], restricted to the
string-valued entries that the verified properties depend on). -/
abbrev ToolInput := List (String × String)

/-- Python dict.get(key, default) on a ToolInput. -/
def dictGet (d : ToolInput) (key dflt : String) : String :=
  match d.find? (fun p => p.1 == key) with
  | some p => p.2
  | none => dflt

/-! ## ShellExecutor (KubeVirtAIAgent.execute_shell_command, src/main.py:274-305) -/

/-- Outcome of subprocess.run(command, shell=True, capture_output=True,
text=True, timeout=30): normal completion with exit code and captured
stdout/stderr, a subprocess.TimeoutExpired, or any other launch exception. -/
inductive ShellOutcome where
  | completed (returncode : Int) (stdout stderr : String)
  | timeoutExpired
  | launchFailure (msg : String)
deriving DecidableEq, Repr

/-- The whitespace set of Python str.strip() for ASCII text. -/
def isPyWhitespace (c : Char) : Bool :=
  c == ' ' || c == '\t' || c == '\n' || c == '\r' || c == '\x0b' || c == '\x0c'

/-- Python str.strip(): drop leading and trailing whitespace. -/
def pyStrip (s : String) : String :=
  ⟨((s.toList.dropWhile isPyWhitespace).reverse.dropWhile isPyWhitespace).reverse⟩

/-- src/main.py:274-305, execute_shell_command: exit code 0 returns
result.stdout.strip(); a non-zero exit code returns the formatted failure
string with the exit code and result.stderr.strip(); TimeoutExpired returns
the fixed timeout message; any other exception returns a formatted error
string.  Every branch of the Python function returns a string (the except
clauses swallow the exception), so the embedding is a total function. -/
def execute_shell_command (outcome : ShellOutcome) : String :=
  match outcome with
  | .completed rc out err =>
    if rc = 0 then
      pyStrip out
    else
      "✗ Command failed (exit code " ++ toString rc ++ "): " ++ pyStrip err
  | .timeoutExpired => "Command timed out after 30 seconds"
  | .launchFailure msg => "Failed to execute command: " ++ msg

/-! ## ResultSanitizer

Modelled from the spec: no sanitizer exists anywhere under src/ (process_query
appends raw tool results, 4.5 of the spec notwithstanding); the definitions
below follow the spec wording in 4.5 so the sanitizer claims can be stated:
replace every "[/" with "[_/", then every "\]" with "_]", then escape "<" and
">" to their entity forms, in that order, left to right and non-overlapping
as Python str.replace does. -/

/-- One left-to-right, non-overlapping replacement pass over a character
list, replacing pattern (p :: ps) by rep; fuel bounds the recursion and is
always instantiated with the length of the list, which suffices because
every step consumes at least one character. -/
def replaceAllAux (p : Char) (ps rep : List Char) : Nat → List Char → List Char
  | 0, _ => []
  | _ + 1, [] => []
  | fuel + 1, c :: rest =>
    if (p :: ps).isPrefixOf (c :: rest) then
      rep ++ replaceAllAux p ps rep fuel (rest.drop ps.length)
    else
      c :: replaceAllAux p ps rep fuel rest

/-- Python str.replace(pattern, rep) for a non-empty pattern, on char lists. -/
def replaceAll (p : Char) (ps rep : List Char) (s : List Char) : List Char :=
  replaceAllAux p ps rep s.length s

/-- Does pat occur as a contiguous substring of s? -/
def containsSub (pat : List Char) : List Char → Bool
  | [] => pat.isPrefixOf []
  | c :: rest => pat.isPrefixOf (c :: rest) || containsSub pat rest

/-- Modelled from the spec (4.5; the function is absent from src/): apply, in
order, "[/" to "[_/", "\]" to "_]", "<" to "&lt;", ">" to "&gt;". -/
def sanitize (s : String) : String :=
  let l1 := replaceAll '[' ['/'] ['[', '_', '/'] s.toList
  let l2 := replaceAll '\\' [']'] ['_', ']'] l1
  let l3 := replaceAll '<' [] ['&', 'l', 't', ';'] l2
  let l4 := replaceAll '>' [] ['&', 'g', 't', ';'] l3
  ⟨l4⟩

/-! Identity of a replacement pass on strings with no occurrence. -/

theorem replaceAllAux_of_not_contains (p : Char) (ps rep : List Char) :
    ∀ (fuel : Nat) (s : List Char), s.length ≤ fuel →
      containsSub (p :: ps) s = false → replaceAllAux p ps rep fuel s = s := by
  intro fuel
  induction fuel with
  | zero =>
    intro s hlen _
    cases s with
    | nil => rfl
    | cons c rest => simp at hlen
  | succ n ih =>
    intro s hlen hsub
    cases s with
    | nil => rfl
    | cons c rest =>
      have hsub' := hsub
      simp only [containsSub, Bool.or_eq_false_iff] at hsub'
      rw [replaceAllAux, if_neg]
      · have : rest.length ≤ n := by
          simpa using Nat.le_of_succ_le_succ hlen
        rw [ih rest this hsub'.2]
      · simp [hsub'.1]

theorem replaceAll_of_not_contains (p : Char) (ps rep : List Char)
    (s : List Char) (h : containsSub (p :: ps) s = false) :
    replaceAll p ps rep s = s :=
  replaceAllAux_of_not_contains p ps rep s.length s (Nat.le_refl _) h

/-! ## Tool descriptors and MCP clients (MCPClient, src/pkg/mcp.py:16-90 and
src/main.py:28-103; the two copies are line-for-line duplicates of the same
class, so one embedding covers both) -/

/-- The schema of one property inside an input_schema object. -/
structure PropertySchema where
  type : String
  description : String
deriving DecidableEq, Repr

/-- The input_schema of a tool in Anthropic format. -/
structure InputSchema where
  type : String
  properties : List (String × PropertySchema)
  required : List String
deriving DecidableEq, Repr

/-- One entry of the flat tool catalog, as built by get_tools_for_anthropic:
name, description, input_schema. -/
structure ToolDescriptor where
  name : String
  description : String
  input_schema : InputSchema
deriving DecidableEq, Repr

/-- An MCPClient after its connect attempt: its configured name, the tools it
discovered through list_tools, and whether self.session is set. -/
structure MCPClient where
  name : String
  tools : List ToolDescriptor
  hasSession : Bool
deriving DecidableEq, Repr

/-- src/pkg/mcp.py:76-85, get_tools_for_anthropic: repackage each discovered
tool as a name/description/input_schema record. -/
def MCPClient.get_tools_for_anthropic (c : MCPClient) : List ToolDescriptor :=
  c.tools.map (fun t =>
    { name := t.name, description := t.description, input_schema := t.input_schema })

/-- What session.call_tool returned when it did not raise: the typed content
blocks (their text payloads) and the str(result) fallback representation. -/
structure CallToolResult where
  content : List String
  strRepr : String
deriving DecidableEq, Repr

/-- src/pkg/mcp.py:63-74, MCPClient.call_tool.  The session behaviour is the
oracle argument: Except.error e stands for session.call_tool raising e.  With
no session the call raises "MCP client not connected"; a session exception is
re-raised wrapped as "Failed to call tool '<name>': <reason>"; otherwise the
first content text is returned, or str(result) when there is no content. -/
def MCPClient.call_tool (c : MCPClient) (toolName : String)
    (session : Except String CallToolResult) : Except String String :=
  if !c.hasSession then
    .error "MCP client not connected"
  else
    match session with
    | .error e => .error ("Failed to call tool '" ++ toolName ++ "': " ++ e)
    | .ok r =>
      match r.content with
      | t :: _ => .ok t
      | [] => .ok r.strRepr

/-! ## MCPRegistry (src/pkg/mcp.py:93-168 and its duplicate
src/main.py:106-177) -/

/-- The registry state the dispatch and catalog paths read: the configured
clients (dict values of self.clients, in insertion order) and the connected
clients (dict values of self.connected_clients, in connection order). -/
structure MCPRegistry where
  clients : List MCPClient
  connected_clients : List MCPClient
deriving DecidableEq, Repr

/-- src/pkg/mcp.py:128-130, get_client: self.connected_clients.get(name). -/
def MCPRegistry.get_client (reg : MCPRegistry) (name : String) : Option MCPClient :=
  reg.connected_clients.find? (fun c => c.name == name)

/-- src/pkg/mcp.py:111-115, connect_all: iterate the configured clients in
order; each client gets exactly one connect() attempt (the oracle connectOk,
by client name); the ones whose attempt returns True are added, in order, to
connected_clients.  Returns the connected list and the attempt log. -/
def connect_all (connectOk : String → Bool) (clients : List MCPClient) :
    List MCPClient × List String :=
  clients.foldl
    (fun acc c =>
      (if connectOk c.name then acc.1 ++ [c] else acc.1, acc.2 ++ [c.name]))
    ([], [])

/-- The built-in shell tool descriptor appended by
get_all_tools_for_anthropic (src/pkg/mcp.py:139-161). -/
def builtinShellTool : ToolDescriptor :=
  { name := "execute_shell_command"
    description := "Execute shell commands like kubectl, virtctl, or any command. Use MCP tools to detect and set KUBECONFIG automatically."
    input_schema :=
      { type := "object"
        properties :=
          [("command",
            { type := "string"
              description := "The shell command to execute, including any environment variables needed" })]
        required := ["command"] } }

/-- src/pkg/mcp.py:132-162, get_all_tools_for_anthropic: extend an empty list
with each connected client's tools, in connection order, then append the
built-in shell descriptor. -/
def MCPRegistry.get_all_tools_for_anthropic (reg : MCPRegistry) : List ToolDescriptor :=
  (reg.connected_clients.foldl
    (fun acc c => acc ++ c.get_tools_for_anthropic) []) ++ [builtinShellTool]

/-! ## Tool dispatch (KubeVirtAIAgent, src/main.py:260-272 and 406-430) -/

/-- src/main.py:260-272, call_mcp_tool: look the client up by name in
connected_clients (raising ValueError when absent) and delegate to
MCPClient.call_tool; its try/except re-raises the exception unchanged. -/
def call_mcp_tool (reg : MCPRegistry) (mcpName toolName : String)
    (session : Except String CallToolResult) : Except String String :=
  match reg.get_client mcpName with
  | none => .error ("MCP client '" ++ mcpName ++ "' not found")
  | some c => c.call_tool toolName session

/-- src/main.py:417-423: scan connected clients in order for the first whose
discovered tool names contain toolName. -/
def findClientForTool (connected : List MCPClient) (toolName : String) :
    Option MCPClient :=
  connected.find? (fun c => (c.tools.map ToolDescriptor.name).contains toolName)

/-- One tool_use content block extracted from a model response: correlation
id, tool name, arguments. -/
structure ToolCall where
  id : String
  name : String
  input : ToolInput
deriving DecidableEq, Repr

/-- src/main.py:406-430, _execute_tool_call: the built-in name check comes
first and routes to execute_shell_command on input.get("command", ""); any
other name is resolved by scanning connected clients, the match delegating to
call_mcp_tool (whose exceptions propagate, modelled by Except.error), no
match yielding the "Tool not found" result text.  The mcp oracle maps
(client name, tool name, input) to that session call's outcome. -/
def _execute_tool_call (reg : MCPRegistry) (shell : String → ShellOutcome)
    (mcp : String → String → ToolInput → Except String CallToolResult)
    (tc : ToolCall) : Except String String :=
  if tc.name == "execute_shell_command" then
    .ok (execute_shell_command (shell (dictGet tc.input "command" "")))
  else
    match findClientForTool reg.connected_clients tc.name with
    | some c => call_mcp_tool reg c.name tc.name (mcp c.name tc.name tc.input)
    | none => .ok ("Tool '" ++ tc.name ++ "' not found")

/-! ## Conversation loop (KubeVirtAIAgent.process_query, src/main.py:307-404) -/

/-- One content block of a model response: plain text or a typed tool_use
request. -/
inductive ContentBlock where
  | text (s : String)
  | toolUse (id name : String) (input : ToolInput)
deriving DecidableEq, Repr

/-- A model endpoint response: its stop_reason and content blocks. -/
structure ModelResponse where
  stop_reason : String
  content : List ContentBlock
deriving DecidableEq, Repr

/-- One tool_result element appended to the conversation
(src/main.py:364-371): the correlation id and the result text. -/
structure ToolResultBlock where
  tool_use_id : String
  content : String
deriving DecidableEq, Repr

/-- The content of a conversation message: the initial plain string, a raw
assistant content list, or a tool_result list. -/
inductive MessageContent where
  | text (s : String)
  | blocks (bs : List ContentBlock)
  | toolResults (rs : List ToolResultBlock)
deriving DecidableEq, Repr

/-- One message of the conversation history. -/
structure Message where
  role : String
  content : MessageContent
deriving DecidableEq, Repr

/-- src/main.py:390-396, _extract_tool_calls: the tool_use blocks of the
response content, in order. -/
def _extract_tool_calls (resp : ModelResponse) : List ToolCall :=
  resp.content.filterMap (fun b =>
    match b with
    | .toolUse i n inp => some { id := i, name := n, input := inp }
    | .text _ => none)

/-- src/main.py:398-404, _extract_text_content: concatenate the text blocks
of the response content. -/
def _extract_text_content (resp : ModelResponse) : String :=
  resp.content.foldl
    (fun acc b =>
      match b with
      | .text s => acc ++ s
      | .toolUse _ _ _ => acc) ""

/-- The for loop of src/main.py:360-371: execute the extracted tool calls in
order, pairing each with its correlation id; an exception from any dispatch
(Except.error) aborts the whole loop, and with it process_query. -/
def runToolCalls (exec : ToolCall → Except String String) :
    List ToolCall → Except String (List ToolResultBlock)
  | [] => .ok []
  | tc :: rest =>
    match exec tc with
    | .error e => .error e
    | .ok r =>
      match runToolCalls exec rest with
      | .error e => .error e
      | .ok rs => .ok ({ tool_use_id := tc.id, content := r } :: rs)

/-- The user-role message wrapping one tool result
(src/main.py:364-371): exactly one message is appended per request. -/
def toolResultMessage (rb : ToolResultBlock) : Message :=
  { role := "user", content := .toolResults [rb] }

/-- The outcome of a completed run: the final history, the returned text and
the number of endpoint calls made. -/
structure RunResult where
  messages : List Message
  finalText : String
  turns : Nat
deriving DecidableEq, Repr

/-- The while loop of src/main.py:338-382.  endpoint t is the response to the
t-th messages.create call (turns are numbered from 1), exec t the dispatcher
in force during turn t; turn counts completed endpoint calls so far and fuel
the remaining iterations the guard allows.  A "tool_use" stop reason appends
the assistant content, runs the tool calls, appends one user message per
result and loops; any other stop reason returns the extracted text; when the
guard fails (fuel 0) the loop exits with the text of the last response. -/
def conversationLoop (endpoint : Nat → ModelResponse)
    (exec : Nat → ToolCall → Except String String) :
    List Message → Nat → Nat → Except String RunResult
  | msgs, turn, 0 =>
    .ok { messages := msgs
          finalText := _extract_text_content (endpoint turn)
          turns := turn }
  | msgs, turn, fuel + 1 =>
    let resp := endpoint (turn + 1)
    if resp.stop_reason == "tool_use" then
      match runToolCalls (exec (turn + 1)) (_extract_tool_calls resp) with
      | .error e => .error e
      | .ok rbs =>
        conversationLoop endpoint exec
          ((msgs ++ [{ role := "assistant", content := .blocks resp.content }])
            ++ rbs.map toolResultMessage)
          (turn + 1) fuel
    else
      .ok { messages := msgs
            finalText := _extract_text_content resp
            turns := turn + 1 }

/-- src/main.py:336, max_safety_turns. -/
def max_safety_turns : Nat := 50

/-- src/main.py:307-404, process_query with its effects abstracted: start
from the single initial user message and run the turn loop under the safety
bound.  Except.error models an exception propagating out of process_query
(the outer except re-raises). -/
def process_query (endpoint : Nat → ModelResponse)
    (exec : Nat → ToolCall → Except String String)
    (initialContent : String) : Except String RunResult :=
  conversationLoop endpoint exec
    [{ role := "user", content := .text initialContent }] 0 max_safety_turns

/-- The dispatcher process_query actually uses: _execute_tool_call over the
registry, with the turn-t view of the shell and session oracles. -/
def dispatchAt (reg : MCPRegistry) (shell : Nat → String → ShellOutcome)
    (mcp : Nat → String → String → ToolInput → Except String CallToolResult)
    (t : Nat) (tc : ToolCall) : Except String String :=
  _execute_tool_call reg (shell t) (mcp t) tc

/-- src/main.py:348, the tools argument of messages.create:
available_tools if available_tools else None (Python truthiness: an empty
list becomes None). -/
def toolsArgumentForApi (reg : MCPRegistry) : Option (List ToolDescriptor) :=
  let available := reg.get_all_tools_for_anthropic
  if available.isEmpty then none else some available

/-! ## Concrete run fixtures used by counterexamples and witnesses -/

/-- A connected provider named diag advertising the tool get_logs. -/
def diagClient : MCPClient :=
  { name := "diag"
    tools := [{ name := "get_logs"
                description := "fetch logs"
                input_schema := { type := "object", properties := [], required := [] } }]
    hasSession := true }

/-- A registry whose connect phase succeeded for diag alone. -/
def diagRegistry : MCPRegistry :=
  { clients := [diagClient], connected_clients := [diagClient] }

/-- Endpoint trace: turn 1 requests get_logs with since=1h, later turns
complete with the text done. -/
def c1Endpoint : Nat → ModelResponse := fun t =>
  if t = 1 then
    { stop_reason := "tool_use"
      content := [.toolUse "toolu_1" "get_logs" [("since", "1h")]] }
  else
    { stop_reason := "end_turn", content := [.text "done"] }

/-- Shell oracle for the C1 run (never reached). -/
def c1Shell : Nat → String → ShellOutcome := fun _ _ => .completed 0 "" ""

/-- Session oracle for the C1 run: every provider call raises. -/
def c1Mcp : Nat → String → String → ToolInput → Except String CallToolResult :=
  fun _ _ _ _ => .error "connection reset"

/-- A registry with no connected providers. -/
def c2Registry : MCPRegistry := { clients := [], connected_clients := [] }

/-- Endpoint trace: turn 1 requests the built-in shell tool, turn 2
completes with the text done. -/
def c2Endpoint : Nat → ModelResponse := fun t =>
  if t = 1 then
    { stop_reason := "tool_use"
      content := [.toolUse "t1" "execute_shell_command" [("command", "emit")]] }
  else
    { stop_reason := "end_turn", content := [.text "done"] }

/-- Shell oracle for the C2 run: the command prints markup-bearing output. -/
def c2Shell : Nat → String → ShellOutcome := fun _ _ => .completed 0 "<x>\n" ""

/-- Session oracle for the C2 run (never reached). -/
def c2Mcp : Nat → String → String → ToolInput → Except String CallToolResult :=
  fun _ _ _ _ => .ok { content := [], strRepr := "" }

/-- Endpoint trace for the C4 witness: every turn requests one tool call. -/
def c4Endpoint : Nat → ModelResponse := fun _ =>
  { stop_reason := "tool_use", content := [.toolUse "a" "some_tool" []] }

/-- Dispatcher for the C4 witness: every call succeeds with the text res. -/
def c4Exec : Nat → ToolCall → Except String String := fun _ _ => .ok "res"

/-- Endpoint trace for the C5 witness: the model never stops requesting
tools, so the run exhausts the safety bound. -/
def c5Endpoint : Nat → ModelResponse := fun _ =>
  { stop_reason := "tool_use", content := [] }

/-- Endpoint trace that completes immediately with the text done. -/
def c5DoneEndpoint : Nat → ModelResponse := fun _ =>
  { stop_reason := "end_turn", content := [.text "done"] }

/-- Dispatcher for the C5 witness: every call succeeds. -/
def c5Exec : Nat → ToolCall → Except String String := fun _ _ => .ok "r"

/-! ## Helper lemmas -/

/-- A successful runToolCalls produces one result block per request, in
order, carrying the correlation id of its request and the raw dispatcher
output. -/
theorem runToolCalls_pairing (exec : ToolCall → Except String String) :
    ∀ (calls : List ToolCall) (rbs : List ToolResultBlock),
      runToolCalls exec calls = Except.ok rbs →
      rbs.length = calls.length ∧
      ∀ i (h1 : i < calls.length) (h2 : i < rbs.length),
        (rbs.get ⟨i, h2⟩).tool_use_id = (calls.get ⟨i, h1⟩).id ∧
        exec (calls.get ⟨i, h1⟩) = Except.ok (rbs.get ⟨i, h2⟩).content := by
  intro calls
  induction calls with
  | nil =>
    intro rbs h
    simp only [runToolCalls] at h
    injection h with h
    subst h
    exact ⟨rfl, fun i h1 _ => absurd h1 (Nat.not_lt_zero i)⟩
  | cons tc rest ih =>
    intro rbs h
    cases hx : exec tc with
    | error e => simp [runToolCalls, hx] at h
    | ok r =>
      cases hr : runToolCalls exec rest with
      | error e => simp [runToolCalls, hx, hr] at h
      | ok rs =>
        have hrbs : { tool_use_id := tc.id, content := r } :: rs = rbs := by
          have h' := h
          simp only [runToolCalls, hx, hr] at h'
          injection h'
        subst hrbs
        obtain ⟨hlen, hidx⟩ := ih rs hr
        refine ⟨by simp [hlen], ?_⟩
        intro i h1 h2
        cases i with
        | zero => exact ⟨rfl, by simpa using hx⟩
        | succ j =>
          have h1' : j < rest.length := Nat.lt_of_succ_lt_succ h1
          have h2' : j < rs.length := Nat.lt_of_succ_lt_succ h2
          simpa using hidx j h1' h2'

/-- When every dispatch succeeds, so does the whole per-turn loop. -/
theorem runToolCalls_ok_of_exec_ok (exec : ToolCall → Except String String)
    (hexec : ∀ tc, ∃ s, exec tc = Except.ok s) :
    ∀ calls, ∃ rbs, runToolCalls exec calls = Except.ok rbs := by
  intro calls
  induction calls with
  | nil => exact ⟨[], rfl⟩
  | cons tc rest ih =>
    obtain ⟨s, hs⟩ := hexec tc
    obtain ⟨rs, hrs⟩ := ih
    exact ⟨{ tool_use_id := tc.id, content := s } :: rs, by simp [runToolCalls, hs, hrs]⟩

/-- The turn counter of a successful loop never exceeds the starting count
plus the remaining fuel. -/
theorem conversationLoop_turns_le (endpoint : Nat → ModelResponse)
    (exec : Nat → ToolCall → Except String String) :
    ∀ (fuel : Nat) (msgs : List Message) (turn : Nat) (r : RunResult),
      conversationLoop endpoint exec msgs turn fuel = Except.ok r →
      r.turns ≤ turn + fuel := by
  intro fuel
  induction fuel with
  | zero =>
    intro msgs turn r h
    simp only [conversationLoop] at h
    injection h with h
    subst h
    simp
  | succ n ih =>
    intro msgs turn r h
    simp only [conversationLoop] at h
    by_cases hstop : ((endpoint (turn + 1)).stop_reason == "tool_use") = true
    · rw [if_pos hstop] at h
      cases hr : runToolCalls (exec (turn + 1)) (_extract_tool_calls (endpoint (turn + 1))) with
      | error e => rw [hr] at h; exact absurd h (by simp)
      | ok rbs =>
        rw [hr] at h
        have := ih _ (turn + 1) r h
        omega
    · rw [if_neg hstop] at h
      injection h with h
      subst h
      simp

/-- While the model keeps requesting tools and every dispatch succeeds, the
loop burns all its fuel and returns the text of the last response. -/
theorem conversationLoop_tool_use_exhausts (endpoint : Nat → ModelResponse)
    (exec : Nat → ToolCall → Except String String) :
    ∀ (fuel turn : Nat) (msgs : List Message),
      (∀ t, turn < t → t ≤ turn + fuel → (endpoint t).stop_reason = "tool_use") →
      (∀ t tc, ∃ s, exec t tc = Except.ok s) →
      ∃ msgs', conversationLoop endpoint exec msgs turn fuel
        = Except.ok { messages := msgs'
                      finalText := _extract_text_content (endpoint (turn + fuel))
                      turns := turn + fuel } := by
  intro fuel
  induction fuel with
  | zero =>
    intro turn msgs _ _
    exact ⟨msgs, by simp [conversationLoop]⟩
  | succ n ih =>
    intro turn msgs hstop hexec
    have hs : (endpoint (turn + 1)).stop_reason = "tool_use" :=
      hstop (turn + 1) (Nat.lt_succ_self turn) (by omega)
    obtain ⟨rbs, hrbs⟩ :=
      runToolCalls_ok_of_exec_ok (exec (turn + 1)) (fun tc => hexec (turn + 1) tc)
        (_extract_tool_calls (endpoint (turn + 1)))
    obtain ⟨msgs', hloop⟩ :=
      ih (turn + 1)
        ((msgs ++ [{ role := "assistant", content := .blocks (endpoint (turn + 1)).content }])
          ++ rbs.map toolResultMessage)
        (fun t ht1 ht2 => hstop t (by omega) (by omega)) hexec
    refine ⟨msgs', ?_⟩
    have harith : turn + 1 + n = turn + (n + 1) := by omega
    rw [harith] at hloop
    simp only [conversationLoop]
    rw [if_pos (by simp [hs]), hrbs]
    exact hloop

/-- A turn whose response requests tools and whose dispatch loop raises makes
the whole conversation loop raise that exception. -/
theorem conversationLoop_step_error (endpoint : Nat → ModelResponse)
    (exec : Nat → ToolCall → Except String String)
    (msgs : List Message) (turn fuel : Nat) (e : String)
    (hstop : (endpoint (turn + 1)).stop_reason = "tool_use")
    (herr : runToolCalls (exec (turn + 1)) (_extract_tool_calls (endpoint (turn + 1)))
      = Except.error e) :
    conversationLoop endpoint exec msgs turn (fuel + 1) = Except.error e := by
  simp only [conversationLoop]
  rw [if_pos (by simp [hstop]), herr]

/-- Folding client tool lists with append flattens them in order. -/
theorem foldl_append_tools (cs : List MCPClient) :
    ∀ acc : List ToolDescriptor,
      cs.foldl (fun a c => a ++ c.get_tools_for_anthropic) acc
        = acc ++ (cs.map MCPClient.get_tools_for_anthropic).flatten := by
  induction cs with
  | nil => intro acc; simp
  | cons c rest ih => intro acc; simp [ih, List.append_assoc]

/-- The connect loop, started from any accumulator, appends the filtered
client list and the full attempt log. -/
theorem connect_all_go (connectOk : String → Bool) :
    ∀ (cs : List MCPClient) (acc1 : List MCPClient) (acc2 : List String),
      cs.foldl
        (fun acc c =>
          (if connectOk c.name then acc.1 ++ [c] else acc.1, acc.2 ++ [c.name]))
        (acc1, acc2)
        = (acc1 ++ cs.filter (fun c => connectOk c.name),
           acc2 ++ cs.map MCPClient.name) := by
  intro cs
  induction cs with
  | nil => intro acc1 acc2; simp
  | cons c rest ih =>
    intro acc1 acc2
    by_cases h : connectOk c.name = true
    · simp [h, ih, List.filter_cons, List.append_assoc]
    · simp [h, ih, List.filter_cons, List.append_assoc]

/-! ## Claims -/

/-- C3: the sanitizer (modelled from the spec, 4.5, since no sanitizer exists
under src/) is a pure total function on strings applying, in order, the
bracket-slash replacement, the escaped-bracket replacement, and the two
angle-bracket entity escapes: sanitize "[/opt/cni/bin]" contains no "[/"
substring, sanitize "<script>" equals "&lt;script&gt;", and every input free
of all four special sequences is returned unchanged. -/
theorem sanitize_meets_spec :
    containsSub ("[/".toList) ((sanitize "[/opt/cni/bin]").toList) = false ∧
    sanitize "<script>" = "&lt;script&gt;" ∧
    ∀ s : String,
      containsSub ("[/".toList) s.toList = false →
      containsSub ("\\]".toList) s.toList = false →
      containsSub ("<".toList) s.toList = false →
      containsSub (">".toList) s.toList = false →
      sanitize s = s := by
  refine ⟨by decide, by decide, ?_⟩
  intro s h1 h2 h3 h4
  have h1' : containsSub ('[' :: ['/']) s.toList = false := h1
  have h2' : containsSub ('\\' :: [']']) s.toList = false := h2
  have h3' : containsSub ('<' :: []) s.toList = false := h3
  have h4' : containsSub ('>' :: []) s.toList = false := h4
  show String.mk
      (replaceAll '>' [] ['&', 'g', 't', ';']
        (replaceAll '<' [] ['&', 'l', 't', ';']
          (replaceAll '\\' [']'] ['_', ']']
            (replaceAll '[' ['/'] ['[', '_', '/'] s.toList)))) = s
  rw [replaceAll_of_not_contains '[' ['/'] _ s.toList h1',
      replaceAll_of_not_contains '\\' [']'] _ s.toList h2',
      replaceAll_of_not_contains '<' [] _ s.toList h3',
      replaceAll_of_not_contains '>' [] _ s.toList h4']
  rfl

/-- Witness for C3: a plain string is left unchanged. -/
theorem sanitize_meets_spec_witness : sanitize "hello world" = "hello world" :=
  sanitize_meets_spec.2.2 "hello world" (by decide) (by decide) (by decide) (by decide)

/-- C4: in every turn whose response requests tools and whose dispatches
succeed, the loop appends exactly one tool-result message per request (after
the assistant message) before the next endpoint call, and the i-th appended
result carries the correlation id of the i-th request. -/
theorem turn_results_correlated
    (endpoint : Nat → ModelResponse) (exec : Nat → ToolCall → Except String String)
    (msgs : List Message) (turn fuel : Nat) (rbs : List ToolResultBlock)
    (hstop : (endpoint (turn + 1)).stop_reason = "tool_use")
    (hrun : runToolCalls (exec (turn + 1)) (_extract_tool_calls (endpoint (turn + 1)))
      = Except.ok rbs) :
    conversationLoop endpoint exec msgs turn (fuel + 1)
      = conversationLoop endpoint exec
          ((msgs ++ [{ role := "assistant", content := .blocks (endpoint (turn + 1)).content }])
            ++ rbs.map toolResultMessage) (turn + 1) fuel ∧
    rbs.length = (_extract_tool_calls (endpoint (turn + 1))).length ∧
    ∀ i (h1 : i < (_extract_tool_calls (endpoint (turn + 1))).length) (h2 : i < rbs.length),
      (rbs.get ⟨i, h2⟩).tool_use_id
        = ((_extract_tool_calls (endpoint (turn + 1))).get ⟨i, h1⟩).id := by
  obtain ⟨hlen, hidx⟩ := runToolCalls_pairing _ _ _ hrun
  refine ⟨?_, hlen, fun i h1 h2 => (hidx i h1 h2).1⟩
  simp only [conversationLoop]
  rw [if_pos (by simp [hstop]), hrun]

/-- Witness for C4: the single-request turn of the c4 fixtures appends
exactly its one correlated result message before the next call. -/
theorem turn_results_correlated_witness :
    conversationLoop c4Endpoint c4Exec [] 0 1
      = conversationLoop c4Endpoint c4Exec
          (([] ++ [{ role := "assistant", content := .blocks (c4Endpoint 1).content }])
            ++ [({ tool_use_id := "a", content := "res" } : ToolResultBlock)].map toolResultMessage)
          1 0 ∧
    [({ tool_use_id := "a", content := "res" } : ToolResultBlock)].length
      = (_extract_tool_calls (c4Endpoint 1)).length := by
  have h := turn_results_correlated c4Endpoint c4Exec [] 0 0
    [{ tool_use_id := "a", content := "res" }] (by rfl) (by rfl)
  exact ⟨h.1, h.2.1⟩

/-- C5: every completed run makes at most 50 endpoint calls; when the model
requests tools on all of the first 50 turns and every dispatch succeeds, the
run reaches the safety bound and returns the extracted text of the 50th (the
last received) response instead of an error. -/
theorem process_query_safety_bound
    (endpoint : Nat → ModelResponse) (exec : Nat → ToolCall → Except String String)
    (q : String) :
    (∀ r, process_query endpoint exec q = Except.ok r → r.turns ≤ 50) ∧
    ((∀ t, 1 ≤ t → t ≤ 50 → (endpoint t).stop_reason = "tool_use") →
      (∀ t tc, ∃ s, exec t tc = Except.ok s) →
      (process_query endpoint exec q).map (fun r => (r.finalText, r.turns))
        = Except.ok (_extract_text_content (endpoint 50), 50)) := by
  constructor
  · intro r h
    have := conversationLoop_turns_le endpoint exec 50 _ 0 r h
    simpa using this
  · intro hstop hexec
    obtain ⟨msgs', h⟩ :=
      conversationLoop_tool_use_exhausts endpoint exec 50 0
        [{ role := "user", content := .text q }]
        (fun t ht1 ht2 => hstop t (by omega) (by omega)) hexec
    show (conversationLoop endpoint exec
        [{ role := "user", content := .text q }] 0 max_safety_turns).map
          (fun r => (r.finalText, r.turns))
      = Except.ok (_extract_text_content (endpoint 50), 50)
    rw [show max_safety_turns = 50 from rfl, h]
    rfl

/-- Witness for C5: under the c5 fixtures the run completes in one turn with
at most 50 calls, and the always-tool-use fixture exhausts the bound and
returns the turn-50 text. -/
theorem process_query_safety_bound_witness :
    ({ messages := [{ role := "user", content := .text "q" }]
       finalText := "done", turns := 1 } : RunResult).turns ≤ 50 ∧
    (process_query c5Endpoint c5Exec "q").map (fun r => (r.finalText, r.turns))
      = Except.ok ("", 50) := by
  constructor
  · exact (process_query_safety_bound c5DoneEndpoint c5Exec "q").1 _ (by rfl)
  · exact (process_query_safety_bound c5Endpoint c5Exec "q").2
      (fun _ _ _ => rfl) (fun _ _ => ⟨"r", rfl⟩)

/-- C6: for every registry state — in particular when connected providers
also advertise the name — invoking execute_shell_command routes to the shell
executor: the result is the shell result and depends on no provider, the
built-in check preceding the provider scan. -/
theorem builtin_always_routes_to_shell
    (reg : MCPRegistry) (shell : String → ShellOutcome)
    (mcp : String → String → ToolInput → Except String CallToolResult)
    (cid : String) (input : ToolInput) :
    _execute_tool_call reg shell mcp
        { id := cid, name := "execute_shell_command", input := input }
      = Except.ok (execute_shell_command (shell (dictGet input "command" ""))) := by
  rfl

/-- C7: the shell executor is a total function into result text: exit code 0
yields the trimmed stdout (so "ok" followed by a newline trims to "ok"), a
non-zero exit yields the formatted string with the exit code and trimmed
stderr, a timeout yields the fixed timeout message, and a launch failure
yields the formatted error string. -/
theorem execute_shell_command_branches :
    execute_shell_command (.completed 0 "ok\n" "") = "ok" ∧
    (∀ out err, execute_shell_command (.completed 0 out err) = pyStrip out) ∧
    (∀ rc out err, rc ≠ 0 → execute_shell_command (.completed rc out err)
      = "✗ Command failed (exit code " ++ toString rc ++ "): " ++ pyStrip err) ∧
    execute_shell_command .timeoutExpired = "Command timed out after 30 seconds" ∧
    ∀ msg, execute_shell_command (.launchFailure msg)
      = "Failed to execute command: " ++ msg := by
  refine ⟨by decide, fun out err => rfl, fun rc out err hrc => ?_, rfl, fun msg => rfl⟩
  simp [execute_shell_command, hrc]

/-- Witness for C7: a failing command with exit code 1 produces the formatted
failure string. -/
theorem execute_shell_command_branches_witness :
    execute_shell_command (.completed 1 "" "err\n")
      = "✗ Command failed (exit code " ++ toString (1 : Int) ++ "): " ++ pyStrip "err\n" ∧
    pyStrip "err\n" = "err" :=
  ⟨execute_shell_command_branches.2.2.1 1 "" "err\n" (by decide), by decide⟩

/-- C8: for every registry state the flat catalog is the provider-sourced
descriptors flattened in connection order followed by the built-in descriptor
appended last, whose name is exactly execute_shell_command with the single
required string argument command. -/
theorem catalog_layout (reg : MCPRegistry) :
    reg.get_all_tools_for_anthropic
      = (reg.connected_clients.map MCPClient.get_tools_for_anthropic).flatten
        ++ [builtinShellTool] ∧
    builtinShellTool.name = "execute_shell_command" ∧
    builtinShellTool.input_schema.required = ["command"] ∧
    builtinShellTool.input_schema.properties.map (fun p => (p.1, p.2.type))
      = [("command", "string")] := by
  refine ⟨?_, rfl, rfl, rfl⟩
  show (reg.connected_clients.foldl (fun acc c => acc ++ c.get_tools_for_anthropic) [])
      ++ [builtinShellTool]
    = (reg.connected_clients.map MCPClient.get_tools_for_anthropic).flatten
      ++ [builtinShellTool]
  rw [foldl_append_tools]
  simp

/-- C9: after the connect phase the connected set is exactly the configured
clients whose connect attempt succeeded, in order — a failed client is left
out without stopping the others — and the attempt log shows each configured
client attempted exactly once, so a failure is not retried within the run. -/
theorem connect_all_partial_failure (connectOk : String → Bool)
    (clients : List MCPClient) :
    (connect_all connectOk clients).1 = clients.filter (fun c => connectOk c.name) ∧
    (connect_all connectOk clients).2 = clients.map MCPClient.name := by
  unfold connect_all
  rw [connect_all_go]
  simp

/-- C10: for every registry state, with zero connected providers included,
the catalog contains the built-in shell descriptor and is therefore
non-empty, and the tools argument handed to messages.create is always some
catalog, never the absent/None value — the empty-catalog case cannot
arise. -/
theorem catalog_never_empty (reg : MCPRegistry) :
    reg.get_all_tools_for_anthropic ≠ [] ∧
    builtinShellTool ∈ reg.get_all_tools_for_anthropic ∧
    toolsArgumentForApi reg = some reg.get_all_tools_for_anthropic := by
  have h : reg.get_all_tools_for_anthropic
      = (reg.connected_clients.foldl (fun acc c => acc ++ c.get_tools_for_anthropic) [])
        ++ [builtinShellTool] := rfl
  have hne : reg.get_all_tools_for_anthropic ≠ [] := by
    rw [h]
    simp
  refine ⟨hne, ?_, ?_⟩
  · rw [h]
    exact List.mem_append_right _ (List.mem_singleton_self _)
  · show (if reg.get_all_tools_for_anthropic.isEmpty then none
      else some reg.get_all_tools_for_anthropic) = some reg.get_all_tools_for_anthropic
    rw [if_neg]
    simp [List.isEmpty_iff, hne]

/-- C1 counterexample: in the concrete run where provider diag's get_logs
call fails at the session level, process_query does not continue with an
error-text result — it aborts, returning the wrapped exception, so a single
failed tool dispatch does abort the run, contrary to the claim. -/
theorem provider_failure_counterexample :
    process_query c1Endpoint (dispatchAt diagRegistry c1Shell c1Mcp) "q"
      = Except.error "Failed to call tool 'get_logs': connection reset" := by
  rfl

/-- C1 (amended): a provider-level failure of an underlying tool call is
wrapped into the descriptive text "Failed to call tool '<name>': <reason>",
but that text propagates as an exception that aborts process_query (here for
a turn-1 failure) instead of being fed back as a tool result. -/
theorem provider_failure_aborts_run
    (reg : MCPRegistry) (shell : Nat → String → ShellOutcome)
    (mcp : Nat → String → String → ToolInput → Except String CallToolResult)
    (endpoint : Nat → ModelResponse) (q : String)
    (tc : ToolCall) (c : MCPClient) (reason : String)
    (hname : tc.name ≠ "execute_shell_command")
    (hfind : findClientForTool reg.connected_clients tc.name = some c)
    (hget : reg.get_client c.name = some c)
    (hsession : c.hasSession = true)
    (hmcp : mcp 1 c.name tc.name tc.input = Except.error reason)
    (hstop : (endpoint 1).stop_reason = "tool_use")
    (hcalls : _extract_tool_calls (endpoint 1) = [tc]) :
    process_query endpoint (dispatchAt reg shell mcp) q
      = Except.error ("Failed to call tool '" ++ tc.name ++ "': " ++ reason) := by
  have hexec : dispatchAt reg shell mcp 1 tc
      = Except.error ("Failed to call tool '" ++ tc.name ++ "': " ++ reason) := by
    have hb : (tc.name == "execute_shell_command") = false := by
      simp [hname]
    simp [dispatchAt, _execute_tool_call, hb, hfind, call_mcp_tool, hget,
      MCPClient.call_tool, hsession, hmcp]
  have herr : runToolCalls (dispatchAt reg shell mcp 1)
      (_extract_tool_calls (endpoint 1))
      = Except.error ("Failed to call tool '" ++ tc.name ++ "': " ++ reason) := by
    rw [hcalls]
    simp [runToolCalls, hexec]
  show conversationLoop endpoint (dispatchAt reg shell mcp)
      [{ role := "user", content := .text q }] 0 max_safety_turns
    = Except.error ("Failed to call tool '" ++ tc.name ++ "': " ++ reason)
  rw [show max_safety_turns = 49 + 1 from rfl]
  exact conversationLoop_step_error endpoint (dispatchAt reg shell mcp) _ 0 49 _ hstop herr

/-- Witness for C1 (amended): the diag fixture instantiates the abort. -/
theorem provider_failure_aborts_run_witness :
    process_query c1Endpoint (dispatchAt diagRegistry c1Shell c1Mcp) "find logs"
      = Except.error ("Failed to call tool '" ++ "get_logs" ++ "': " ++ "connection reset") :=
  provider_failure_aborts_run diagRegistry c1Shell c1Mcp c1Endpoint "find logs"
    { id := "toolu_1", name := "get_logs", input := [("since", "1h")] }
    diagClient "connection reset"
    (by decide) (by rfl) (by rfl) (by rfl) (by rfl) (by rfl) (by rfl)

/-- C2 counterexample: in the concrete run whose shell tool prints markup,
the appended tool_result content is the raw result "<x>", which differs from
sanitize "<x>" — so appended contents do not equal the sanitized results. -/
theorem raw_append_counterexample :
    process_query c2Endpoint (dispatchAt c2Registry c2Shell c2Mcp) "q"
      = Except.ok
          { messages :=
              [{ role := "user", content := .text "q" },
               { role := "assistant"
                 content := .blocks
                   [.toolUse "t1" "execute_shell_command" [("command", "emit")]] },
               { role := "user"
                 content := .toolResults [{ tool_use_id := "t1", content := "<x>" }] }]
            finalText := "done"
            turns := 2 } ∧
    sanitize "<x>" ≠ "<x>" :=
  ⟨by rfl, by decide⟩

/-- C2 (amended): process_query applies no sanitization: the content of every
appended tool_result message equals the raw dispatcher result itself. -/
theorem tool_results_appended_raw
    (exec : ToolCall → Except String String) (calls : List ToolCall)
    (rbs : List ToolResultBlock)
    (h : runToolCalls exec calls = Except.ok rbs) :
    ∀ i (h1 : i < calls.length) (h2 : i < rbs.length),
      exec (calls.get ⟨i, h1⟩) = Except.ok ((rbs.get ⟨i, h2⟩).content) := by
  intro i h1 h2
  exact ((runToolCalls_pairing exec calls rbs h).2 i h1 h2).2

/-- Witness for C2 (amended): the single appended result of a one-call turn
is exactly the raw dispatcher output. -/
theorem tool_results_appended_raw_witness :
    (fun _ : ToolCall => (Except.ok "<x>" : Except String String))
        (([{ id := "t1", name := "some_tool", input := [] }] : List ToolCall).get ⟨0, Nat.one_pos⟩)
      = Except.ok ((([{ tool_use_id := "t1", content := "<x>" }] : List ToolResultBlock).get
          ⟨0, Nat.one_pos⟩).content) :=
  tool_results_appended_raw (fun _ => Except.ok "<x>")
    [{ id := "t1", name := "some_tool", input := [] }]
    [{ tool_use_id := "t1", content := "<x>" }]
    (by rfl) 0 Nat.one_pos Nat.one_pos

end KubevirtAI
